import Mathlib

/-!
Verification development for the `line-ai` web client.

The embedding below models the streaming chat hook (`src/web/hooks/useChat.ts`)
and the turn presentation logic (`src/web/components/turn.tsx`) of the
repository.  Stateful React code is modelled by explicit state passing over a
`ChatState` record; the browser `EventSource` is modelled by the
`handlersRegistered`/`streamOpen`/`closeCount` fields together with the
`deliver` dispatch function (an event reaches a handler only while the handler
is registered, exactly as `addEventListener`/`removeEventListener` behave).
JSON payloads are modelled by the inductive `Json`; a frame whose payload is
not valid JSON is `Frame.malformed`.
-/

/-- Model of a parsed JSON value (`JSON.parse` result).  Numbers are modelled
as integers, which suffices for every payload the client inspects.  Object
fields are an association list; the payloads considered here have distinct
keys, and lookup takes the first binding. -/
inductive Json where
  | null : Json
  | bool : Bool → Json
  | num : Int → Json
  | str : String → Json
  | arr : List Json → Json
  | obj : List (String × Json) → Json

/-- First-key lookup in a JSON object field list. -/
def lookupField : List (String × Json) → String → Option Json
  | [], _ => none
  | (k, v) :: rest, key => if k = key then some v else lookupField rest key

/-- Property access `value.key` on a parsed JSON value: `none` models the
JavaScript `undefined` result (missing field, or access on a non-object). -/
def Json.getField : Json → String → Option Json
  | Json.obj fields, key => lookupField fields key
  | _, _ => none

/-- JavaScript truthiness of a parsed JSON value. -/
def Json.truthy : Json → Bool
  | Json.null => false
  | Json.bool b => b
  | Json.num n => n != 0
  | Json.str s => s != ""
  | Json.arr _ => true
  | Json.obj _ => true

/-- JavaScript `String(value)` coercion of a parsed JSON value, as performed
by `URLSearchParams.set`. -/
def jsToString : Json → String
  | Json.null => "null"
  | Json.bool b => cond b "true" "false"
  | Json.num n => toString n
  | Json.str s => s
  | Json.arr xs => String.intercalate "," (xs.attach.map (fun x => jsToString x.1))
  | Json.obj _ => "[object Object]"
decreasing_by
  simp_wf
  have h := List.sizeOf_lt_of_mem x.2
  omega

/-- JavaScript `String.prototype.trim`: drop whitespace from both ends.
Defined structurally over the character list so that it evaluates inside the
kernel (the ASCII whitespace characters cover every payload considered). -/
def jsTrim (s : String) : String :=
  String.mk (((s.data.dropWhile Char.isWhitespace).reverse.dropWhile
    Char.isWhitespace).reverse)

/-- Session status of the chat hook (`type ChatStatus`, useChat.ts line 10). -/
inductive ChatStatus where
  | ready : ChatStatus
  | streaming : ChatStatus
  | error : ChatStatus
deriving DecidableEq

/-- One question/answer exchange (`TurnData`, types.ts lines 89-92).  The
stored messages are the raw parsed `data` payloads appended by the hook. -/
structure TurnData where
  question : String
  messages : List Json

/-- The stream URL the hook opens, kept structured: base endpoint plus the
query parameters in insertion order (useChat.ts lines 179-183). -/
structure StreamUrl where
  endpoint : String
  params : List (String × String)

/-- The state owned by `useChat` (useChat.ts lines 147-154) together with the
observable connection effects: `streamOpen` models `streamRef.current` being
non-null, `handlersRegistered` models the three `addEventListener`
registrations being in place, `closeCount` counts `stream.close()` calls and
`openedUrls` records each `new EventSource(url)` construction. -/
structure ChatState where
  turns : List TurnData
  status : ChatStatus
  error : Option String
  streamOpen : Bool
  handlersRegistered : Bool
  activeTurnIndex : Option Nat
  conversationId : Option Json
  closeCount : Nat
  openedUrls : List StreamUrl

/-- Initial hook state (useChat.ts lines 147-154). -/
def initialState : ChatState where
  turns := []
  status := ChatStatus.ready
  error := none
  streamOpen := false
  handlersRegistered := false
  activeTurnIndex := none
  conversationId := none
  closeCount := 0
  openedUrls := []

/-- The `cleanup` closure (useChat.ts lines 42-49 plus the `onCleanup`
callback, lines 226-235): deregister the three listeners, close the stream,
set the status, clear the stream/cleanup refs and the active turn index. -/
def cleanup (s : ChatState) (nextStatus : ChatStatus) : ChatState :=
  { s with
    handlersRegistered := false
    closeCount := s.closeCount + 1
    status := nextStatus
    streamOpen := false
    activeTurnIndex := none }

/-- The duck-typed guard `isStreamMessage` (useChat.ts lines 126-144): a
non-null object whose `type` field is one of the known tags. -/
def isStreamMessage (value : Json) : Bool :=
  match value with
  | Json.obj _ =>
    match Json.getField value "type" with
    | some (Json.str t) =>
      t == "turn.start" || t == "step.start" || t == "step.status" ||
      t == "step.end" || t == "step.fetch.start" || t == "step.fetch.end" ||
      t == "step.answer.start" || t == "step.answer.delta" ||
      t == "step.answer.end" || t == "answer"
    | _ => false
  | _ => false

/-- The `turn.start` branch of `appendMessage` (useChat.ts lines 199-201):
store the `conversation_id` field of a `turn.start` message, whatever its
value. -/
def recordConversationId (s : ChatState) (message : Json) : ChatState :=
  match Json.getField message "type" with
  | some (Json.str "turn.start") =>
    { s with conversationId := Json.getField message "conversation_id" }
  | _ => s

/-- The `appendMessage` closure (useChat.ts lines 193-216): bail out when no
turn is active; on a `turn.start` message store its `conversation_id`; then
append the message to the active turn when the recorded index is in bounds
(the index is a `Nat`, so the source `turnIndex < 0` test is vacuous). -/
def appendMessage (s : ChatState) (message : Json) : ChatState :=
  match s.activeTurnIndex with
  | none => s
  | some turnIndex =>
    let s1 := recordConversationId s message
    if h : turnIndex < s1.turns.length then
      let currentTurn := s1.turns.get ⟨turnIndex, h⟩
      { s1 with
        turns := s1.turns.set turnIndex
          { currentTurn with messages := currentTurn.messages ++ [message] } }
    else s1

/-- Query parameters of the stream URL (useChat.ts lines 179-183):
`user_message` always, then `conversation_id` when the stored identifier is
truthy. -/
def streamParams (conversationId : Option Json) (question : String) :
    List (String × String) :=
  [("user_message", question)] ++
    (match conversationId with
     | some j => if j.truthy then [("conversation_id", jsToString j)] else []
     | none => [])

/-- `sendMessage` (useChat.ts lines 167-243).  The guard rejects an empty
trimmed question or an already-open stream; a missing or empty base URL only
surfaces a configuration error; otherwise a turn is appended, status becomes
`streaming`, the error is cleared and one stream is opened with its handlers
registered. -/
def sendMessage (baseUrl : Option String) (text : String) (s : ChatState) :
    ChatState :=
  let question := jsTrim text
  if question = "" ∨ s.streamOpen = true then s
  else
    match baseUrl with
    | none => { s with error := some "Chat service URL is not configured" }
    | some base =>
      if base = "" then { s with error := some "Chat service URL is not configured" }
      else
        let params := streamParams s.conversationId question
        { s with
          turns := s.turns ++ [{ question := question, messages := [] }]
          activeTurnIndex := some s.turns.length
          status := ChatStatus.streaming
          error := none
          streamOpen := true
          handlersRegistered := true
          openedUrls := s.openedUrls ++ [{ endpoint := base ++ "/chat", params := params }] }

/-- A raw frame delivered on an event channel: either its payload fails
`JSON.parse`, or it parses to a JSON value. -/
inductive Frame where
  | malformed : Frame
  | json : Json → Frame

/-- `handleStreamMessage` (useChat.ts lines 51-75).  A parse failure records
an error and cleans up with status `error`; a falsy parse result, a missing
`event: "message"` tag, a falsy `data` field, or a `data` payload that is not
a known `StreamMessage` variant are ignored (logged only); a valid payload is
appended to the active turn. -/
def handleStreamMessage (s : ChatState) (f : Frame) : ChatState :=
  match f with
  | Frame.malformed =>
    cleanup { s with error := some "Failed to parse stream message" } ChatStatus.error
  | Frame.json parsed =>
    if parsed.truthy = false then s
    else
      match Json.getField parsed "event" with
      | some (Json.str "message") =>
        (match Json.getField parsed "data" with
         | some d =>
           if d.truthy = false then s
           else if isStreamMessage d = false then s
           else appendMessage s d
         | none => s)
      | _ => s

/-- `handleStreamEnd` (useChat.ts lines 77-91).  A parse failure — or a `null`
payload, whose `.message` access throws inside the `try` block — records an
error and cleans up with status `error`; any other payload cleans up with
status `ready` (a payload other than `[DONE]` is only logged). -/
def handleStreamEnd (s : ChatState) (f : Frame) : ChatState :=
  match f with
  | Frame.malformed =>
    cleanup { s with error := some "Failed to parse stream end payload" } ChatStatus.error
  | Frame.json Json.null =>
    cleanup { s with error := some "Failed to parse stream end payload" } ChatStatus.error
  | Frame.json _ => cleanup s ChatStatus.ready

/-- A server-sent event on one of the two channels the claims concern
(the transport-level `error` channel is not modelled: no claim mentions it). -/
inductive SseEvent where
  | message : Frame → SseEvent
  | endEvent : Frame → SseEvent

/-- Browser event dispatch: a handler runs only while it is registered;
after `cleanup` has deregistered the listeners an event is dropped. -/
def deliver (s : ChatState) (e : SseEvent) : ChatState :=
  if s.handlersRegistered = true then
    match e with
    | SseEvent.message f => handleStreamMessage s f
    | SseEvent.endEvent f => handleStreamEnd s f
  else s

/-- The SSE envelope the backend wraps a stream message in
(`ChatStreamEnvelope`, types.ts lines 65-68). -/
def mkEnvelope (m : Json) : Json :=
  Json.obj [("event", Json.str "message"), ("data", m)]

/-- Deliver a list of stream messages, each wrapped in its envelope, on the
message channel in order. -/
def deliverValidMessages (s : ChatState) (ms : List Json) : ChatState :=
  ms.foldl (fun st m => deliver st (SseEvent.message (Frame.json (mkEnvelope m)))) s

/-- A frame payload that passes every check of `handleStreamMessage`
(truthy envelope, `event: "message"`, truthy `data`, known variant). -/
def validMessageFrame (j : Json) : Bool :=
  j.truthy &&
  (match Json.getField j "event" with
   | some (Json.str s) => s == "message"
   | _ => false) &&
  (match Json.getField j "data" with
   | some d => d.truthy && isStreamMessage d
   | none => false)

/-- A citation candidate (`PageSummary`, types.ts lines 1-6). -/
structure PageSummary where
  url : String
  title : Option String := none
  snippet : Option String := none
  favicon : Option String := none
deriving DecidableEq

/-- The runtime shape of a stream message as consumed by the presentation
layer (turn.tsx).  The component duck-types on the `type` tag and reads the
variant-specific fields, each of which may be absent at runtime; an absent
field is `none`. -/
structure StreamMessage where
  type : String
  conversation_id : Option String := none
  title : Option String := none
  description : Option String := none
  pages : Option (List PageSummary) := none
  delta : Option String := none
  answer : Option String := none
  citations : Option (List PageSummary) := none
deriving DecidableEq

/-- A rendered reference card (`TurnReference`, answer-section.tsx). -/
structure TurnReference where
  title : String
  description : String
  href : String
deriving DecidableEq

/-- Workflow step status (`AgentWorkflowStatus`, agent-workflow-card). -/
inductive AgentWorkflowStatus where
  | complete : AgentWorkflowStatus
  | active : AgentWorkflowStatus
  | pending : AgentWorkflowStatus
deriving DecidableEq

/-- A derived workflow step (`AgentWorkflowStep`).  The `detail` field of the
source is rendered markup (a `ReactNode`), which carries no state; it is not
modelled. -/
structure AgentWorkflowStep where
  title : String
  status : AgentWorkflowStatus
deriving DecidableEq

def PLANNING_STEP_TITLE : String := "Planning the appropriate route"
def SEARCH_STEP_TITLE : String := "Running web search"
def RANK_STEP_TITLE : String := "Ranking candidate sources"
def FETCH_STEP_TITLE : String := "Fetching supporting details"
def ANSWER_STEP_TITLE : String := "Answering the question"

/-- `getLast` (turn.tsx lines 34-39). -/
def getLast {α : Type} (items : List α) : Option α :=
  if items.length = 0 then none else items.get? (items.length - 1)

/-- `computeStepStatus` (turn.tsx lines 128-139). -/
def computeStepStatus (hasStarted hasCompleted : Bool) : AgentWorkflowStatus :=
  if hasCompleted then AgentWorkflowStatus.complete
  else if hasStarted then AgentWorkflowStatus.active
  else AgentWorkflowStatus.pending

/-- Status portion of `buildWorkflowSteps` (turn.tsx lines 169-301): filter
the messages per category and derive each step status; the `detail` strings
and markup are presentation only and not modelled. -/
def buildWorkflowSteps (messages : List StreamMessage) : List AgentWorkflowStep :=
  let stepStarts := messages.filter (fun m => m.type == "step.start")
  let stepEnds := messages.filter (fun m => m.type == "step.end")
  let fetchStarts := messages.filter (fun m => m.type == "step.fetch.start")
  let fetchEnds := messages.filter (fun m => m.type == "step.fetch.end")
  let answerStarts := messages.filter (fun m => m.type == "step.answer.start")
  let answerDeltas := messages.filter (fun m => m.type == "step.answer.delta")
  let answerEnds := messages.filter (fun m => m.type == "step.answer.end")
  let answerMessages := messages.filter (fun m => m.type == "answer")
  let planningStarts := stepStarts.filter (fun m => m.title == some PLANNING_STEP_TITLE)
  let planningEnds := stepEnds.filter (fun m => m.title == some PLANNING_STEP_TITLE)
  let planningStatus := computeStepStatus
    (decide (0 < planningStarts.length))
    (decide (0 < planningEnds.length) && decide (planningStarts.length ≤ planningEnds.length))
  let searchStarts := stepStarts.filter (fun m => m.title == some SEARCH_STEP_TITLE)
  let searchEnds := stepEnds.filter (fun m => m.title == some SEARCH_STEP_TITLE)
  let searchStatus := computeStepStatus
    (decide (0 < searchStarts.length))
    (decide (0 < searchEnds.length) && decide (searchStarts.length ≤ searchEnds.length))
  let rankStarts := stepStarts.filter (fun m => m.title == some RANK_STEP_TITLE)
  let rankEnds := stepEnds.filter (fun m => m.title == some RANK_STEP_TITLE)
  let rankStatus := computeStepStatus
    (decide (0 < rankStarts.length))
    (decide (0 < rankEnds.length) && decide (rankStarts.length ≤ rankEnds.length))
  let fetchStatus := computeStepStatus
    (decide (0 < fetchStarts.length))
    (decide (0 < fetchEnds.length) && decide (fetchStarts.length ≤ fetchEnds.length))
  let answerHasStarted := decide (0 < answerStarts.length) ||
    decide (0 < answerDeltas.length) || decide (0 < answerMessages.length)
  let answerHasCompleted := decide (0 < answerMessages.length) ||
    decide (0 < answerEnds.length)
  let answerStatus := computeStepStatus answerHasStarted answerHasCompleted
  [ { title := PLANNING_STEP_TITLE, status := planningStatus },
    { title := SEARCH_STEP_TITLE, status := searchStatus },
    { title := RANK_STEP_TITLE, status := rankStatus },
    { title := FETCH_STEP_TITLE, status := fetchStatus },
    { title := ANSWER_STEP_TITLE, status := answerStatus } ]

/-- Rendered title of a page card: `page.title?.trim() || page.url`. -/
def pageCardTitle (page : PageSummary) : String :=
  match page.title with
  | some t => if jsTrim t = "" then page.url else jsTrim t
  | none => page.url

/-- Rendered description of a reference card:
`page.snippet?.trim() || "No summary available."`. -/
def pageCardDescription (page : PageSummary) : String :=
  match page.snippet with
  | some t => if jsTrim t = "" then "No summary available." else jsTrim t
  | none => "No summary available."

/-- The loop of `deriveReferencesFromPages` (turn.tsx lines 313-325): skip a
page with an empty URL or an already-seen URL, otherwise record the URL as
seen and push a reference card. -/
def deriveRefsLoop (seen : List String) (references : List TurnReference) :
    List PageSummary → List TurnReference
  | [] => references
  | page :: rest =>
    if page.url = "" ∨ page.url ∈ seen then deriveRefsLoop seen references rest
    else
      deriveRefsLoop (seen ++ [page.url])
        (references ++ [{ title := pageCardTitle page,
                          description := pageCardDescription page,
                          href := page.url }]) rest

/-- `deriveReferencesFromPages` (turn.tsx lines 303-328). -/
def deriveReferencesFromPages (pages : Option (List PageSummary)) :
    List TurnReference :=
  match pages with
  | none => []
  | some ps => if ps.length = 0 then [] else deriveRefsLoop [] [] ps

/-- The `uniquePages` selection loop of `renderPageList` (turn.tsx lines
52-68): same URL deduplication, but the loop breaks once four pages have been
collected.  The markup that maps each selected page to a list item is not
modelled. -/
def renderPagesLoop (seen : List String) (uniquePages : List PageSummary) :
    List PageSummary → List PageSummary
  | [] => uniquePages
  | page :: rest =>
    if page.url = "" ∨ page.url ∈ seen then renderPagesLoop seen uniquePages rest
    else
      let next := uniquePages ++ [page]
      if 4 ≤ next.length then next
      else renderPagesLoop (seen ++ [page.url]) next rest

/-- The pages displayed by `renderPageList` (turn.tsx lines 48-68). -/
def renderPageListPages (pages : List PageSummary) : List PageSummary :=
  renderPagesLoop [] [] pages

/-- Result of `extractAnswer` (turn.tsx lines 330-350). -/
structure ExtractedAnswer where
  content : String
  references : List TurnReference
deriving DecidableEq

/-- `extractAnswer` (turn.tsx lines 330-350): the latest `answer` message
wins when present and carrying an `answer` field; otherwise the
`step.answer.delta` fragments are joined in order.  A missing `delta` field
becomes the empty string under `Array.prototype.join`.  The non-empty result
is trimmed. -/
def extractAnswer (messages : List StreamMessage) : ExtractedAnswer :=
  let answerMessages := messages.filter (fun m => m.type == "answer")
  let latestAnswer := getLast answerMessages
  let answerDeltas := messages.filter (fun m => m.type == "step.answer.delta")
  let joined := String.join (answerDeltas.map (fun m => m.delta.getD ""))
  let combinedAnswer :=
    match latestAnswer with
    | some m => m.answer.getD joined
    | none => joined
  let content := if combinedAnswer = "" then "" else jsTrim combinedAnswer
  let references := deriveReferencesFromPages
    (match latestAnswer with
     | some m => m.citations
     | none => none)
  { content := content, references := references }

/-!
Spec-side definitions.  The definitions below restate, in the vocabulary of
the specification, the quantities the claims compare against the code model:
deduplication with first occurrence winning, concatenation of answer
fragments, and the per-step status formulas.  The claim theorems relate them
to the code-side functions above.
-/

/-- Deduplication keeping the first occurrence of every element, order
preserved, as the spec words it. -/
def dedupFirstSpec : List String → List String
  | [] => []
  | u :: us => u :: dedupFirstSpec (us.filter (fun v => decide (v ≠ u)))
termination_by l => l.length
decreasing_by
  simp_wf
  have h := List.length_filter_le (fun v => !decide (v = u)) us
  have h2 : (u :: us).length = us.length + 1 := List.length_cons u us
  omega

/-- Concatenation, in arrival order, of all incremental answer fragments. -/
def concatDeltasSpec (messages : List StreamMessage) : String :=
  String.join ((messages.filter (fun m => m.type == "step.answer.delta")).map
    (fun m => m.delta.getD ""))

/-- Spec-side status of a start/end counted workflow step: complete when at
least one end event has been seen and the end events are at least as many as
the start events; active when a start event has been seen; pending
otherwise. -/
def specCountedStatus (startP endP : StreamMessage → Bool)
    (messages : List StreamMessage) : AgentWorkflowStatus :=
  if 0 < messages.countP endP ∧ messages.countP startP ≤ messages.countP endP then
    AgentWorkflowStatus.complete
  else if messages.any startP then AgentWorkflowStatus.active
  else AgentWorkflowStatus.pending

def isPlanningStart (m : StreamMessage) : Bool :=
  m.title == some PLANNING_STEP_TITLE && m.type == "step.start"

def isPlanningEnd (m : StreamMessage) : Bool :=
  m.title == some PLANNING_STEP_TITLE && m.type == "step.end"

def isSearchStart (m : StreamMessage) : Bool :=
  m.title == some SEARCH_STEP_TITLE && m.type == "step.start"

def isSearchEnd (m : StreamMessage) : Bool :=
  m.title == some SEARCH_STEP_TITLE && m.type == "step.end"

def isRankStart (m : StreamMessage) : Bool :=
  m.title == some RANK_STEP_TITLE && m.type == "step.start"

def isRankEnd (m : StreamMessage) : Bool :=
  m.title == some RANK_STEP_TITLE && m.type == "step.end"

def isFetchStart (m : StreamMessage) : Bool := m.type == "step.fetch.start"

def isFetchEnd (m : StreamMessage) : Bool := m.type == "step.fetch.end"

/-- Spec-side status of the answer step: complete the moment an `answer`
message or a `step.answer.end` message has been observed; active once
synthesis has visibly started (an answer start, any delta, or an answer
message); pending otherwise. -/
def answerStatusSpec (messages : List StreamMessage) : AgentWorkflowStatus :=
  if messages.any (fun m => m.type == "answer") ∨
     messages.any (fun m => m.type == "step.answer.end") then
    AgentWorkflowStatus.complete
  else if messages.any (fun m => m.type == "step.answer.start") ∨
          messages.any (fun m => m.type == "step.answer.delta") ∨
          messages.any (fun m => m.type == "answer") then
    AgentWorkflowStatus.active
  else AgentWorkflowStatus.pending

/-- Spec-side list of the five step statuses, in display order. -/
def workflowStatusesSpec (messages : List StreamMessage) :
    List AgentWorkflowStatus :=
  [ specCountedStatus isPlanningStart isPlanningEnd messages,
    specCountedStatus isSearchStart isSearchEnd messages,
    specCountedStatus isRankStart isRankEnd messages,
    specCountedStatus isFetchStart isFetchEnd messages,
    answerStatusSpec messages ]

/-- URL trace of the reference loop: the URLs pushed by `deriveRefsLoop`
starting from a given seen set. -/
def dedupUrlsFrom (seen : List String) : List PageSummary → List String
  | [] => []
  | p :: rest =>
    if p.url = "" ∨ p.url ∈ seen then dedupUrlsFrom seen rest
    else p.url :: dedupUrlsFrom (seen ++ [p.url]) rest

/-!
Helper lemmas.
-/

theorem recordConversationId_turns (s : ChatState) (m : Json) :
    (recordConversationId s m).turns = s.turns := by
  unfold recordConversationId
  split <;> rfl

theorem recordConversationId_activeTurnIndex (s : ChatState) (m : Json) :
    (recordConversationId s m).activeTurnIndex = s.activeTurnIndex := by
  unfold recordConversationId
  split <;> rfl

theorem recordConversationId_handlersRegistered (s : ChatState) (m : Json) :
    (recordConversationId s m).handlersRegistered = s.handlersRegistered := by
  unfold recordConversationId
  split <;> rfl

theorem recordConversationId_status (s : ChatState) (m : Json) :
    (recordConversationId s m).status = s.status := by
  unfold recordConversationId
  split <;> rfl

theorem isStreamMessage_truthy {m : Json} (h : isStreamMessage m = true) :
    m.truthy = true := by
  cases m <;> first | rfl | simp [isStreamMessage] at h

theorem set_append_getElem_self (l : List TurnData) (i : Nat) (m : Json)
    (h : i < l.length) :
    (l.set i { question := (l.get ⟨i, h⟩).question,
               messages := (l.get ⟨i, h⟩).messages ++ [m] })[i]? =
      l[i]?.map (fun t => { question := t.question,
                            messages := t.messages ++ [m] }) := by
  rw [List.getElem?_set_self', List.getElem?_eq_getElem h]
  rfl

theorem sendMessage_accepted (base text : String) (s : ChatState)
    (hq : ¬ jsTrim text = "") (hopen : s.streamOpen = false)
    (hbase : ¬ base = "") :
    sendMessage (some base) text s =
      { s with
        turns := s.turns ++ [{ question := jsTrim text, messages := [] }]
        activeTurnIndex := some s.turns.length
        status := ChatStatus.streaming
        error := none
        streamOpen := true
        handlersRegistered := true
        openedUrls := s.openedUrls ++
          [{ endpoint := base ++ "/chat",
             params := streamParams s.conversationId (jsTrim text) }] } := by
  have hc : ¬ (jsTrim text = "" ∨ s.streamOpen = true) := by
    simp [hq, hopen]
  simp [sendMessage, hc, hbase]

theorem deliver_end_ready (st : ChatState) (j : Json)
    (hreg : st.handlersRegistered = true) (hj : ¬ j = Json.null) :
    deliver st (SseEvent.endEvent (Frame.json j)) = cleanup st ChatStatus.ready := by
  unfold deliver
  rw [if_pos hreg]
  cases j with
  | null => exact absurd rfl hj
  | bool b => rfl
  | num n => rfl
  | str s => rfl
  | arr xs => rfl
  | obj fields => rfl

theorem deliver_envelope_eq_append (st : ChatState) (m : Json)
    (hreg : st.handlersRegistered = true) (hm : isStreamMessage m = true) :
    deliver st (SseEvent.message (Frame.json (mkEnvelope m))) = appendMessage st m := by
  unfold deliver
  rw [if_pos hreg]
  show (if m.truthy = false then st
        else if isStreamMessage m = false then st
        else appendMessage st m) = appendMessage st m
  rw [isStreamMessage_truthy hm, hm]
  simp

/-- Claim C4: a `sendMessage` call whose text trims to empty, or made while a
connection is already open, is a complete no-op: the state — transcript,
status, error, connection bookkeeping, opened URLs — is returned unchanged,
so no second connection is opened and no error is surfaced. -/
theorem sendMessage_rejected_noop (baseUrl : Option String) (text : String)
    (s : ChatState) (h : jsTrim text = "" ∨ s.streamOpen = true) :
    sendMessage baseUrl text s = s := by
  unfold sendMessage
  rw [if_pos h]

theorem sendMessage_rejected_noop_witness :
    (jsTrim "   " = "" ∨ initialState.streamOpen = true) ∧
      sendMessage (some "u") "   " initialState = initialState :=
  ⟨Or.inl (by decide),
   sendMessage_rejected_noop (some "u") "   " initialState (Or.inl (by decide))⟩

/-- Counterexample to claim C8 as stated: the appended turn stores the
trimmed text, not the literal submitted text, so for the input `" hi "` the
question field is `"hi"`, which differs from the literal submitted text. -/
theorem question_trimmed_counterexample :
    (sendMessage (some "u") " hi " initialState).turns =
      [{ question := "hi", messages := [] }] ∧ ("hi" : String) ≠ " hi " := by
  exact ⟨rfl, by decide⟩

/-- Claim C8 (amended): every accepted `sendMessage` call — trimmed text
non-empty, no open connection, base URL configured — appends exactly one new
turn at the end of the transcript whose question is the trimmed submitted
text and whose message list is empty, sets status to `streaming`, and clears
any previous error. -/
theorem accepted_send_appends_trimmed_turn (base text : String) (s : ChatState)
    (hq : ¬ jsTrim text = "") (hopen : s.streamOpen = false)
    (hbase : ¬ base = "") :
    (sendMessage (some base) text s).turns =
      s.turns ++ [{ question := jsTrim text, messages := [] }] ∧
    (sendMessage (some base) text s).status = ChatStatus.streaming ∧
    (sendMessage (some base) text s).error = none := by
  rw [sendMessage_accepted base text s hq hopen hbase]
  exact ⟨rfl, rfl, rfl⟩

theorem accepted_send_appends_trimmed_turn_witness :
    (sendMessage (some "u") " hi " initialState).turns =
      initialState.turns ++ [{ question := jsTrim " hi ", messages := [] }] ∧
    (sendMessage (some "u") " hi " initialState).status = ChatStatus.streaming ∧
    (sendMessage (some "u") " hi " initialState).error = none :=
  accepted_send_appends_trimmed_turn "u" " hi " initialState (by decide) rfl
    (by decide)

/-- Claim C10: a valid stream message processed while no turn is active is
dropped with the whole state unchanged; one processed with an out-of-bounds
recorded index leaves the transcript unchanged; and an appended message
changes only the messages field of the turn at the active index — its
question and every other turn are untouched. -/
theorem append_message_frame_effects (s : ChatState) (m : Json) :
    (s.activeTurnIndex = none → appendMessage s m = s) ∧
    (∀ i, s.activeTurnIndex = some i → s.turns.length ≤ i →
      (appendMessage s m).turns = s.turns) ∧
    (∀ i, s.activeTurnIndex = some i → i < s.turns.length →
      ((appendMessage s m).turns[i]? = s.turns[i]?.map
          (fun t => { question := t.question, messages := t.messages ++ [m] }) ∧
       ∀ j, ¬ j = i → (appendMessage s m).turns[j]? = s.turns[j]?)) := by
  refine ⟨?_, ?_, ?_⟩
  · intro h
    unfold appendMessage
    rw [h]
  · intro i hi hle
    have hn : ¬ i < (recordConversationId s m).turns.length := by
      rw [recordConversationId_turns]
      omega
    simp only [appendMessage, hi]
    rw [dif_neg hn]
    exact recordConversationId_turns s m
  · intro i hi hlt
    have hp : i < (recordConversationId s m).turns.length := by
      rw [recordConversationId_turns]
      exact hlt
    simp only [appendMessage, hi]
    rw [dif_pos hp]
    constructor
    · rw [set_append_getElem_self (recordConversationId s m).turns i m hp,
        recordConversationId_turns]
    · intro j hj
      rw [List.getElem?_set_ne (Ne.symm hj), recordConversationId_turns]

theorem append_message_frame_effects_witness :
    (appendMessage
        { initialState with
          turns := [{ question := "q", messages := [] }]
          activeTurnIndex := some 0 }
        (Json.obj [("type", Json.str "answer")])).turns[0]? =
      some { question := "q", messages := [Json.obj [("type", Json.str "answer")]] } :=
  (((append_message_frame_effects
      { initialState with
        turns := [{ question := "q", messages := [] }]
        activeTurnIndex := some 0 }
      (Json.obj [("type", Json.str "answer")])).2.2 0 rfl (by decide)).1).trans rfl

theorem appendMessage_handlersRegistered (s : ChatState) (m : Json) :
    (appendMessage s m).handlersRegistered = s.handlersRegistered := by
  unfold appendMessage
  split
  · rfl
  · simp only []
    split
    · exact recordConversationId_handlersRegistered s m
    · exact recordConversationId_handlersRegistered s m

theorem appendMessage_activeTurnIndex (s : ChatState) (m : Json) :
    (appendMessage s m).activeTurnIndex = s.activeTurnIndex := by
  unfold appendMessage
  split
  · rfl
  · simp only []
    split
    · exact recordConversationId_activeTurnIndex s m
    · exact recordConversationId_activeTurnIndex s m

theorem appendMessage_active_getElem (s : ChatState) (m : Json) (i : Nat)
    (hi : s.activeTurnIndex = some i) (hlt : i < s.turns.length) :
    (appendMessage s m).turns[i]? = s.turns[i]?.map
      (fun t => { question := t.question, messages := t.messages ++ [m] }) :=
  ((append_message_frame_effects s m).2.2 i hi hlt).1

theorem deliverValidMessages_invariant (ms : List Json) :
    ∀ (st : ChatState) (n : Nat) (q : String) (acc : List Json),
    st.handlersRegistered = true → st.activeTurnIndex = some n →
    st.turns[n]? = some { question := q, messages := acc } →
    (∀ m ∈ ms, isStreamMessage m = true) →
    (deliverValidMessages st ms).handlersRegistered = true ∧
    (deliverValidMessages st ms).activeTurnIndex = some n ∧
    (deliverValidMessages st ms).turns[n]? =
      some { question := q, messages := acc ++ ms } := by
  induction ms with
  | nil =>
    intro st n q acc hreg hact hturn _
    refine ⟨hreg, hact, ?_⟩
    rw [List.append_nil]
    exact hturn
  | cons m rest ih =>
    intro st n q acc hreg hact hturn hvalid
    have hm : isStreamMessage m = true := hvalid m (List.mem_cons_self m rest)
    have hrest : ∀ x ∈ rest, isStreamMessage x = true := fun x hx =>
      hvalid x (List.mem_cons_of_mem m hx)
    have hstep : deliverValidMessages st (m :: rest) =
        deliverValidMessages (appendMessage st m) rest := by
      unfold deliverValidMessages
      rw [List.foldl_cons, deliver_envelope_eq_append st m hreg hm]
    rw [hstep]
    have hlt : n < st.turns.length := by
      rcases List.getElem?_eq_some.mp hturn with ⟨h, _⟩
      exact h
    have h1 : (appendMessage st m).handlersRegistered = true := by
      rw [appendMessage_handlersRegistered]
      exact hreg
    have h2 : (appendMessage st m).activeTurnIndex = some n := by
      rw [appendMessage_activeTurnIndex]
      exact hact
    have h3 : (appendMessage st m).turns[n]? =
        some { question := q, messages := acc ++ [m] } := by
      rw [appendMessage_active_getElem st m n hact hlt, hturn]
      rfl
    have hfinal := ih (appendMessage st m) n q (acc ++ [m]) h1 h2 h3 hrest
    refine ⟨hfinal.1, hfinal.2.1, ?_⟩
    rw [hfinal.2.2]
    rw [List.append_assoc]
    rfl

/-- Claim C1: for every sequence of valid stream messages delivered on the
message channel before the end signal, the message list of the turn opened by
the accepting `sendMessage` call equals exactly that sequence in arrival
order — every valid message appended once at the end, none dropped, none
reordered — and the end signal leaves the stream in status `ready`. -/
theorem stream_messages_form_turn_transcript (s : ChatState)
    (base text : String) (ms : List Json) (endPayload : Json)
    (hq : ¬ jsTrim text = "") (hopen : s.streamOpen = false)
    (hbase : ¬ base = "")
    (hvalid : ∀ m ∈ ms, isStreamMessage m = true)
    (hend : ¬ endPayload = Json.null) :
    (deliver (deliverValidMessages (sendMessage (some base) text s) ms)
        (SseEvent.endEvent (Frame.json endPayload))).turns[s.turns.length]? =
      some { question := jsTrim text, messages := ms } ∧
    (deliver (deliverValidMessages (sendMessage (some base) text s) ms)
        (SseEvent.endEvent (Frame.json endPayload))).status =
      ChatStatus.ready := by
  have hsend := sendMessage_accepted base text s hq hopen hbase
  have hstart : (sendMessage (some base) text s).turns[s.turns.length]? =
      some { question := jsTrim text, messages := [] } := by
    rw [hsend]
    exact List.getElem?_concat_length s.turns _
  have hreg : (sendMessage (some base) text s).handlersRegistered = true := by
    rw [hsend]
  have hact : (sendMessage (some base) text s).activeTurnIndex =
      some s.turns.length := by
    rw [hsend]
  have hinv := deliverValidMessages_invariant ms (sendMessage (some base) text s)
    s.turns.length (jsTrim text) [] hreg hact hstart hvalid
  have hendstep := deliver_end_ready
    (deliverValidMessages (sendMessage (some base) text s) ms) endPayload
    hinv.1 hend
  rw [hendstep]
  constructor
  · show (deliverValidMessages (sendMessage (some base) text s)
      ms).turns[s.turns.length]? = _
    rw [hinv.2.2]
    rfl
  · rfl

theorem stream_messages_form_turn_transcript_witness :
    (deliver (deliverValidMessages (sendMessage (some "u") "hi" initialState)
        [Json.obj [("type", Json.str "turn.start"),
                   ("conversation_id", Json.str "c1")],
         Json.obj [("type", Json.str "answer"),
                   ("answer", Json.str "It is sunny.")]])
        (SseEvent.endEvent (Frame.json
          (Json.obj [("message", Json.str "[DONE]")])))).turns[0]? =
      some { question := "hi",
             messages := [Json.obj [("type", Json.str "turn.start"),
                                    ("conversation_id", Json.str "c1")],
                          Json.obj [("type", Json.str "answer"),
                                    ("answer", Json.str "It is sunny.")]] } ∧
    (deliver (deliverValidMessages (sendMessage (some "u") "hi" initialState)
        [Json.obj [("type", Json.str "turn.start"),
                   ("conversation_id", Json.str "c1")],
         Json.obj [("type", Json.str "answer"),
                   ("answer", Json.str "It is sunny.")]])
        (SseEvent.endEvent (Frame.json
          (Json.obj [("message", Json.str "[DONE]")])))).status =
      ChatStatus.ready :=
  stream_messages_form_turn_transcript initialState "u" "hi"
    [Json.obj [("type", Json.str "turn.start"),
               ("conversation_id", Json.str "c1")],
     Json.obj [("type", Json.str "answer"),
               ("answer", Json.str "It is sunny.")]]
    (Json.obj [("message", Json.str "[DONE]")])
    (by decide) rfl (by decide) (by decide) (fun h => Json.noConfusion h)

/-- A live streaming state reached by an accepted `sendMessage` from the
initial state; used as a concrete base point below. -/
def streamingState : ChatState := sendMessage (some "u") "hi" initialState

/-- Claim C9: receiving the end signal with a well-formed payload while the
handlers are registered and status is `streaming` transitions status to
`ready` and performs exactly one connection close; afterwards the handlers
are deregistered, so any further event — a second end signal included —
leaves the state untouched: no second close, no state change (and the model
is a total function, so nothing throws). -/
theorem end_signal_single_close (s : ChatState) (j : Json)
    (hreg : s.handlersRegistered = true)
    (_hstatus : s.status = ChatStatus.streaming) (hj : ¬ j = Json.null) :
    (deliver s (SseEvent.endEvent (Frame.json j))).status = ChatStatus.ready ∧
    (deliver s (SseEvent.endEvent (Frame.json j))).closeCount = s.closeCount + 1 ∧
    (deliver s (SseEvent.endEvent (Frame.json j))).handlersRegistered = false ∧
    ∀ e, deliver (deliver s (SseEvent.endEvent (Frame.json j))) e =
      deliver s (SseEvent.endEvent (Frame.json j)) := by
  have h := deliver_end_ready s j hreg hj
  rw [h]
  have hh : ¬ ((cleanup s ChatStatus.ready).handlersRegistered = true) := by
    simp [cleanup]
  refine ⟨rfl, rfl, rfl, ?_⟩
  intro e
  unfold deliver
  rw [if_neg hh]

theorem end_signal_single_close_witness :
    (deliver streamingState (SseEvent.endEvent (Frame.json
      (Json.obj [("message", Json.str "[DONE]")])))).status = ChatStatus.ready ∧
    (deliver streamingState (SseEvent.endEvent (Frame.json
      (Json.obj [("message", Json.str "[DONE]")])))).closeCount =
      streamingState.closeCount + 1 :=
  ⟨(end_signal_single_close streamingState
      (Json.obj [("message", Json.str "[DONE]")]) rfl rfl
      (fun h => Json.noConfusion h)).1,
   (end_signal_single_close streamingState
      (Json.obj [("message", Json.str "[DONE]")]) rfl rfl
      (fun h => Json.noConfusion h)).2.1⟩

/-- Counterexample to claim C2 as stated: a frame whose payload parses but
matches no known `StreamMessage` variant is logged and ignored, not treated
as fatal — the state is unchanged, no error message is recorded, the status
stays `streaming` and no close is performed. -/
theorem unknown_variant_ignored_counterexample :
    deliver streamingState (SseEvent.message (Frame.json
      (Json.obj [("event", Json.str "message"),
                 ("data", Json.obj [("type", Json.str "bogus")])]))) =
      streamingState ∧
    streamingState.error = none ∧ streamingState.closeCount = 0 ∧
    streamingState.status = ChatStatus.streaming :=
  ⟨rfl, rfl, rfl, rfl⟩

/-- Claim C2 (amended): on the message channel, a frame whose payload fails
JSON parsing is fatal — a fixed non-empty user-visible error message is
recorded, the connection is closed exactly once and status becomes `error` —
while a frame whose payload parses but does not pass the envelope and
known-variant checks is logged and otherwise ignored: the state is returned
unchanged. -/
theorem malformed_frame_fatal_unknown_ignored (s : ChatState) (j : Json)
    (hreg : s.handlersRegistered = true) :
    ((deliver s (SseEvent.message Frame.malformed)).status = ChatStatus.error ∧
     (deliver s (SseEvent.message Frame.malformed)).error =
       some "Failed to parse stream message" ∧
     ¬ ("Failed to parse stream message" = "") ∧
     (deliver s (SseEvent.message Frame.malformed)).closeCount = s.closeCount + 1 ∧
     (deliver s (SseEvent.message Frame.malformed)).handlersRegistered = false) ∧
    (validMessageFrame j = false →
      deliver s (SseEvent.message (Frame.json j)) = s) := by
  constructor
  · unfold deliver
    rw [if_pos hreg]
    exact ⟨rfl, rfl, by decide, rfl, rfl⟩
  · intro hv
    unfold deliver
    rw [if_pos hreg]
    show (if j.truthy = false then s
          else
            match Json.getField j "event" with
            | some (Json.str "message") =>
              (match Json.getField j "data" with
               | some d =>
                 if d.truthy = false then s
                 else if isStreamMessage d = false then s
                 else appendMessage s d
               | none => s)
            | _ => s) = s
    split
    · rfl
    · rename_i hT
      split
      · rename_i hev
        split
        · rename_i d hdata
          split
          · rfl
          · rename_i hdT
            split
            · rfl
            · rename_i hds
              exfalso
              have hT1 : j.truthy = true := by
                revert hT
                cases j.truthy
                · intro hc
                  exact absurd rfl hc
                · intro _
                  rfl
              have hdT1 : d.truthy = true := by
                revert hdT
                cases d.truthy
                · intro hc
                  exact absurd rfl hc
                · intro _
                  rfl
              have hds1 : isStreamMessage d = true := by
                revert hds
                cases isStreamMessage d
                · intro hc
                  exact absurd rfl hc
                · intro _
                  rfl
              have : validMessageFrame j = true := by
                unfold validMessageFrame
                rw [hev, hdata]
                simp [hT1, hdT1, hds1]
              rw [this] at hv
              exact Bool.noConfusion hv
        · rfl
      · rfl

theorem malformed_frame_fatal_witness :
    (deliver streamingState (SseEvent.message Frame.malformed)).status =
      ChatStatus.error ∧
    (deliver streamingState (SseEvent.message Frame.malformed)).closeCount =
      streamingState.closeCount + 1 ∧
    deliver streamingState (SseEvent.message (Frame.json Json.null)) =
      streamingState :=
  ⟨(malformed_frame_fatal_unknown_ignored streamingState Json.null rfl).1.1,
   (malformed_frame_fatal_unknown_ignored streamingState Json.null rfl).1.2.2.2.1,
   (malformed_frame_fatal_unknown_ignored streamingState Json.null rfl).2 rfl⟩

/-- A `turn.start` message whose conversation identifier is the empty
string. -/
def turnStartEmptyId : Json :=
  Json.obj [("type", Json.str "turn.start"), ("conversation_id", Json.str "")]

/-- The state after the server opens a turn with the empty conversation
identifier and then ends the stream. -/
def stateAfterEmptyId : ChatState :=
  deliver
    (deliver streamingState
      (SseEvent.message (Frame.json (mkEnvelope turnStartEmptyId))))
    (SseEvent.endEvent (Frame.json (Json.obj [("message", Json.str "[DONE]")])))

/-- Counterexample to claim C7 as stated: after a `turn.start` carrying the
conversation identifier `""` has been processed and the stream has ended, the
identifier is stored, yet the next accepted `sendMessage` opens its stream
without any `conversation_id` parameter — the empty identifier is falsy in
the source guard, so it is not forwarded verbatim. -/
theorem empty_conversation_id_counterexample :
    stateAfterEmptyId.conversationId = some (Json.str "") ∧
    stateAfterEmptyId.streamOpen = false ∧
    (sendMessage (some "u") "next" stateAfterEmptyId).openedUrls =
      [{ endpoint := "u/chat", params := [("user_message", "hi")] },
       { endpoint := "u/chat", params := [("user_message", "next")] }] :=
  ⟨rfl, rfl, rfl⟩

/-- Claim C7 (amended): while no `turn.start` has been processed the stored
conversation identifier is absent and an accepted `sendMessage` opens its
stream without a `conversation_id` parameter; processing a `turn.start`
carrying identifier `c` while a turn is active stores exactly that string;
and when the stored identifier is a non-empty string `c`, the next accepted
`sendMessage` forwards `conversation_id=c` verbatim (an identifier that is
the empty string is falsy in the source guard and is omitted). -/
theorem conversation_id_forwarding (s : ChatState) (base text c : String)
    (hq : ¬ jsTrim text = "") (hopen : s.streamOpen = false)
    (hbase : ¬ base = "") :
    (s.conversationId = none →
      (sendMessage (some base) text s).openedUrls = s.openedUrls ++
        [{ endpoint := base ++ "/chat",
           params := [("user_message", jsTrim text)] }]) ∧
    (∀ i, s.activeTurnIndex = some i →
      (appendMessage s (Json.obj [("type", Json.str "turn.start"),
        ("conversation_id", Json.str c)])).conversationId =
        some (Json.str c)) ∧
    (¬ c = "" → s.conversationId = some (Json.str c) →
      (sendMessage (some base) text s).openedUrls = s.openedUrls ++
        [{ endpoint := base ++ "/chat",
           params := [("user_message", jsTrim text),
                      ("conversation_id", c)] }]) := by
  refine ⟨?_, ?_, ?_⟩
  · intro hcid
    rw [sendMessage_accepted base text s hq hopen hbase, hcid]
    rfl
  · intro i hi
    simp only [appendMessage, hi]
    split
    · rfl
    · rfl
  · intro hc hcid
    rw [sendMessage_accepted base text s hq hopen hbase, hcid]
    have ht : (Json.str c).truthy = true := by
      simp [Json.truthy, hc]
    simp [streamParams, ht, jsToString]

theorem conversation_id_forwarding_witness :
    (appendMessage
        { initialState with
          turns := [{ question := "q", messages := [] }]
          activeTurnIndex := some 0 }
        (Json.obj [("type", Json.str "turn.start"),
                   ("conversation_id", Json.str "c1")])).conversationId =
      some (Json.str "c1") ∧
    (sendMessage (some "u") "hello"
        { initialState with
          conversationId := some (Json.str "c1") }).openedUrls =
      [] ++ [{ endpoint := "u" ++ "/chat",
               params := [("user_message", jsTrim "hello"),
                          ("conversation_id", "c1")] }] :=
  ⟨(conversation_id_forwarding
      { initialState with
        turns := [{ question := "q", messages := [] }]
        activeTurnIndex := some 0 } "u" "hello" "c1"
      (by decide) rfl (by decide)).2.1 0 rfl,
   (conversation_id_forwarding
      { initialState with conversationId := some (Json.str "c1") }
      "u" "hello" "c1" (by decide) rfl (by decide)).2.2 (by decide) rfl⟩

/-- Counterexample to claim C5 as stated: with the single delta fragment
`"Hello "` the displayed content is the trimmed string `"Hello"`, not the
raw concatenation `"Hello "`. -/
theorem displayed_answer_trimmed_counterexample :
    (extractAnswer [{ type := "step.answer.delta",
                      delta := some "Hello " }]).content = "Hello" ∧
    ("Hello" : String) ≠ "Hello " :=
  ⟨by decide, by decide⟩

/-- The displayed-content guard of `extractAnswer`: a falsy (empty) combined
answer displays as the empty string, anything else is trimmed; in both cases
the result is the trimmed string. -/
theorem trim_guard (x : String) : (if x = "" then "" else jsTrim x) = jsTrim x := by
  by_cases h : x = ""
  · rw [if_pos h, h]
    rfl
  · rw [if_neg h]

/-- Claim C5 (amended): when no final `answer` event is present, the
displayed content is the whitespace-trimmed concatenation, in arrival order,
of the incremental answer-delta fragments; once a final `answer` event
carrying an answer string is present, the displayed content is that final
answer, whitespace-trimmed, regardless of any prior deltas (the latest
`answer` event wins). -/
theorem displayed_answer_resolution (messages : List StreamMessage) :
    (messages.filter (fun m => m.type == "answer") = [] →
      (extractAnswer messages).content = jsTrim (concatDeltasSpec messages)) ∧
    (∀ m a, getLast (messages.filter (fun m2 => m2.type == "answer")) = some m →
      m.answer = some a → (extractAnswer messages).content = jsTrim a) := by
  constructor
  · intro hnone
    have hgl : getLast (messages.filter (fun m => m.type == "answer")) =
        (none : Option StreamMessage) := by
      rw [hnone]
      rfl
    unfold extractAnswer
    simp only []
    rw [hgl]
    simp only []
    exact trim_guard _
  · intro m a hgl ha
    unfold extractAnswer
    simp only []
    rw [hgl]
    simp only []
    rw [ha]
    simp only [Option.getD_some]
    exact trim_guard a

theorem displayed_answer_resolution_witness :
    (extractAnswer [{ type := "step.answer.delta", delta := some "Hel" },
                    { type := "step.answer.delta", delta := some "lo" }]).content =
      jsTrim (concatDeltasSpec
        [{ type := "step.answer.delta", delta := some "Hel" },
         { type := "step.answer.delta", delta := some "lo" }]) ∧
    (extractAnswer [{ type := "step.answer.delta", delta := some "Hel" },
                    { type := "answer", answer := some "Hi" }]).content =
      jsTrim "Hi" :=
  ⟨(displayed_answer_resolution
      [{ type := "step.answer.delta", delta := some "Hel" },
       { type := "step.answer.delta", delta := some "lo" }]).1 (by decide),
   (displayed_answer_resolution
      [{ type := "step.answer.delta", delta := some "Hel" },
       { type := "answer", answer := some "Hi" }]).2
      { type := "answer", answer := some "Hi" } "Hi" (by decide) rfl⟩

theorem deriveRefsLoop_map_href (ps : List PageSummary) :
    ∀ (seen : List String) (refs : List TurnReference),
    (deriveRefsLoop seen refs ps).map TurnReference.href =
      refs.map TurnReference.href ++ dedupUrlsFrom seen ps := by
  induction ps with
  | nil =>
    intro seen refs
    simp [deriveRefsLoop, dedupUrlsFrom]
  | cons p rest ih =>
    intro seen refs
    unfold deriveRefsLoop dedupUrlsFrom
    by_cases h : p.url = "" ∨ p.url ∈ seen
    · rw [if_pos h, if_pos h]
      exact ih seen refs
    · rw [if_neg h, if_neg h]
      rw [ih]
      simp

theorem dedupUrlsFrom_eq (ps : List PageSummary) :
    ∀ seen : List String,
    dedupUrlsFrom seen ps =
      dedupFirstSpec ((ps.map PageSummary.url).filter
        (fun u => decide (¬ u = "" ∧ u ∉ seen))) := by
  induction ps with
  | nil =>
    intro seen
    simp [dedupUrlsFrom, dedupFirstSpec]
  | cons p rest ih =>
    intro seen
    unfold dedupUrlsFrom
    by_cases h : p.url = "" ∨ p.url ∈ seen
    · rw [if_pos h]
      have hp : (decide (¬ p.url = "" ∧ p.url ∉ seen)) = false := by
        rcases h with h | h
        · simp [h]
        · simp [h]
      simp only [List.map_cons, List.filter_cons, hp]
      rw [ih seen]
      simp
    · rw [if_neg h]
      rw [not_or] at h
      have hp : (decide (¬ p.url = "" ∧ p.url ∉ seen)) = true := by
        simp [h.1, h.2]
      simp only [List.map_cons, List.filter_cons, hp, if_true]
      rw [show dedupFirstSpec (p.url ::
          (rest.map PageSummary.url).filter
            (fun u => decide (¬ u = "" ∧ u ∉ seen))) =
        p.url :: dedupFirstSpec
          (((rest.map PageSummary.url).filter
            (fun u => decide (¬ u = "" ∧ u ∉ seen))).filter
            (fun v => decide (v ≠ p.url))) from by rw [dedupFirstSpec]]
      rw [List.filter_filter]
      rw [ih (seen ++ [p.url])]
      have hpt : ∀ a ∈ rest.map PageSummary.url,
          (decide (¬ a = "" ∧ a ∉ seen ++ [p.url])) =
            (decide (a ≠ p.url) && decide (¬ a = "" ∧ a ∉ seen)) := by
        intro a _
        by_cases h1 : a = ""
        · simp [h1]
        · by_cases h2 : a ∈ seen
          · simp [h1, h2]
          · by_cases h3 : a = p.url
            · simp [h1, h2, h3]
            · simp [h1, h2, h3]
      rw [List.filter_congr hpt]

theorem renderPagesLoop_take (ps : List PageSummary) :
    ∀ (seen : List String) (acc : List PageSummary), acc.length < 4 →
    (renderPagesLoop seen acc ps).map PageSummary.url =
      acc.map PageSummary.url ++ (dedupUrlsFrom seen ps).take (4 - acc.length) := by
  induction ps with
  | nil =>
    intro seen acc hacc
    simp [renderPagesLoop, dedupUrlsFrom]
  | cons p rest ih =>
    intro seen acc hacc
    unfold renderPagesLoop dedupUrlsFrom
    by_cases h : p.url = "" ∨ p.url ∈ seen
    · rw [if_pos h, if_pos h]
      exact ih seen acc hacc
    · rw [if_neg h, if_neg h]
      simp only []
      by_cases h4 : 4 ≤ (acc ++ [p]).length
      · rw [if_pos h4]
        have hlen : (acc ++ [p]).length = acc.length + 1 := by simp
        have h3 : acc.length = 3 := by omega
        rw [List.map_append, h3]
        rfl
      · rw [if_neg h4]
        have hlen : (acc ++ [p]).length = acc.length + 1 := by simp
        have hlt : (acc ++ [p]).length < 4 := by omega
        rw [ih (seen ++ [p.url]) (acc ++ [p]) hlt]
        rw [List.map_append, hlen]
        have htake : (4 - acc.length) = (4 - (acc.length + 1)) + 1 := by omega
        rw [htake, List.take_succ_cons]
        simp

/-- Counterexample to claim C6 as stated: a citation page whose URL is the
empty string is skipped entirely, so its URL appears zero times in the
rendered reference list instead of exactly once. -/
theorem empty_url_dropped_counterexample :
    (deriveReferencesFromPages (some [{ url := "" }])).map TurnReference.href =
      [] ∧ ([""] : List String) ≠ [] :=
  ⟨rfl, by decide⟩

/-- Claim C6 (amended): the rendered reference list contains each non-empty
URL exactly once — first occurrence wins, input order preserved, no length
cap — and the inline fetch preview applies the very same deduplication but
displays at most the first four pages; pages whose URL is the empty string
are skipped by both. -/
theorem citation_reference_dedup (pages : List PageSummary) :
    (deriveReferencesFromPages (some pages)).map TurnReference.href =
      dedupFirstSpec ((pages.map PageSummary.url).filter
        (fun u => decide (u ≠ ""))) ∧
    (renderPageListPages pages).map PageSummary.url =
      (dedupFirstSpec ((pages.map PageSummary.url).filter
        (fun u => decide (u ≠ "")))).take 4 := by
  have hpred : ∀ a ∈ pages.map PageSummary.url,
      (decide (¬ a = "" ∧ a ∉ ([] : List String))) = (decide (a ≠ "")) := by
    intro a _
    simp
  have hdedup : dedupUrlsFrom [] pages =
      dedupFirstSpec ((pages.map PageSummary.url).filter
        (fun u => decide (u ≠ ""))) := by
    rw [dedupUrlsFrom_eq pages [], List.filter_congr hpred]
  constructor
  · show List.map TurnReference.href
      (if pages.length = 0 then [] else deriveRefsLoop [] [] pages) = _
    by_cases hnil : pages.length = 0
    · rw [if_pos hnil]
      have : pages = [] := List.length_eq_zero.mp hnil
      rw [this]
      simp [dedupFirstSpec]
    · rw [if_neg hnil]
      rw [deriveRefsLoop_map_href pages [] []]
      rw [hdedup]
      rfl
  · unfold renderPageListPages
    rw [renderPagesLoop_take pages [] [] (by decide)]
    rw [hdedup]
    rfl

theorem computeStepStatus_decide (P Q : Prop) [Decidable P] [Decidable Q] :
    computeStepStatus (decide P) (decide Q) =
      if Q then AgentWorkflowStatus.complete
      else if P then AgentWorkflowStatus.active
      else AgentWorkflowStatus.pending := by
  by_cases hq : Q
  · simp [computeStepStatus, hq]
  · by_cases hp : P
    · simp [computeStepStatus, hq, hp]
    · simp [computeStepStatus, hq, hp]

theorem filter_length_pos_iff_any {α : Type} (l : List α) (p : α → Bool) :
    (0 < (l.filter p).length) ↔ l.any p = true := by
  induction l with
  | nil => simp
  | cons a l ih =>
    by_cases h : p a
    · simp [List.filter_cons, h]
    · simp [List.filter_cons, h, ih]

theorem countedStatus_bridge (startP endP : StreamMessage → Bool)
    (messages : List StreamMessage) :
    computeStepStatus (decide (0 < (messages.filter startP).length))
      (decide (0 < (messages.filter endP).length) &&
       decide ((messages.filter startP).length ≤ (messages.filter endP).length)) =
      specCountedStatus startP endP messages := by
  rw [← Bool.decide_and, computeStepStatus_decide]
  unfold specCountedStatus
  simp only [List.countP_eq_length_filter]
  exact if_congr Iff.rfl rfl
    (if_congr (filter_length_pos_iff_any messages startP) rfl rfl)

theorem answerStatus_bridge (messages : List StreamMessage) :
    computeStepStatus
      (decide (0 < (messages.filter (fun m => m.type == "step.answer.start")).length) ||
       decide (0 < (messages.filter (fun m => m.type == "step.answer.delta")).length) ||
       decide (0 < (messages.filter (fun m => m.type == "answer")).length))
      (decide (0 < (messages.filter (fun m => m.type == "answer")).length) ||
       decide (0 < (messages.filter (fun m => m.type == "step.answer.end")).length)) =
      answerStatusSpec messages := by
  have e1 := filter_length_pos_iff_any messages (fun m => m.type == "step.answer.start")
  have e2 := filter_length_pos_iff_any messages (fun m => m.type == "step.answer.delta")
  have e3 := filter_length_pos_iff_any messages (fun m => m.type == "answer")
  have e4 := filter_length_pos_iff_any messages (fun m => m.type == "step.answer.end")
  unfold computeStepStatus answerStatusSpec
  by_cases h3 : messages.any (fun m => m.type == "answer") = true <;>
    by_cases h4 : messages.any (fun m => m.type == "step.answer.end") = true <;>
    by_cases h1 : messages.any (fun m => m.type == "step.answer.start") = true <;>
    by_cases h2 : messages.any (fun m => m.type == "step.answer.delta") = true <;>
    simp [e1, e2, e3, e4, h1, h2, h3, h4]

/-- Counterexample to claim C3 as stated: with two planning start events and
one planning end event, a completion event for the planning category has
been observed, yet the derived planning status is `active`, not `complete` —
the code requires at least as many end events as start events. -/
theorem second_start_blocks_completion_counterexample :
    (buildWorkflowSteps
      [{ type := "step.start", title := some PLANNING_STEP_TITLE },
       { type := "step.start", title := some PLANNING_STEP_TITLE },
       { type := "step.end", title := some PLANNING_STEP_TITLE }]).map
        AgentWorkflowStep.status =
      [AgentWorkflowStatus.active, AgentWorkflowStatus.pending,
       AgentWorkflowStatus.pending, AgentWorkflowStatus.pending,
       AgentWorkflowStatus.pending] ∧
    AgentWorkflowStatus.active ≠ AgentWorkflowStatus.complete :=
  ⟨by decide, by decide⟩

/-- Claim C3 (amended): the derived steps are the five fixed ones in display
order; for the planning, search, rank and fetch steps the status is
`complete` when at least one matching end event has been seen and the end
events are at least as many as the start events (so a pending re-start keeps
the step `active`), `active` when a start event has been seen but that
completion condition fails, and `pending` otherwise; the answer step counts
an answer-start, any answer delta, or a final answer message as started, and
is `complete` the moment a final answer or an answer-end event is observed,
even if other answer-category events are still pending. -/
theorem workflow_step_statuses (messages : List StreamMessage) :
    (buildWorkflowSteps messages).map AgentWorkflowStep.status =
      workflowStatusesSpec messages ∧
    (buildWorkflowSteps messages).map AgentWorkflowStep.title =
      [PLANNING_STEP_TITLE, SEARCH_STEP_TITLE, RANK_STEP_TITLE,
       FETCH_STEP_TITLE, ANSWER_STEP_TITLE] := by
  constructor
  · unfold buildWorkflowSteps workflowStatusesSpec
    simp only [List.map_cons, List.map_nil, List.filter_filter,
      List.cons.injEq, and_true]
    refine ⟨?_, ?_, ?_, ?_, ?_⟩
    · exact countedStatus_bridge isPlanningStart isPlanningEnd messages
    · exact countedStatus_bridge isSearchStart isSearchEnd messages
    · exact countedStatus_bridge isRankStart isRankEnd messages
    · exact countedStatus_bridge isFetchStart isFetchEnd messages
    · exact answerStatus_bridge messages
  · rfl
